import Mathlib

/-!
Verification of the filter / aggregate / compare / export pipeline of the
real-estate dashboard repository (src/app.py and src/app2.py).

The two Python files are near-duplicate Streamlit dashboards over two pandas
DataFrames (a property table and a plot table).  We shallowly embed the data
model and the data transformations:

* a DataFrame row becomes a Lean structure with one field per required column;
  numeric cells are modelled as rationals (the CSV data is decimal), text
  cells as strings;
* a boolean-mask selection such as df[mask] becomes List.filter (pandas
  boolean indexing returns a fresh frame, so the result is a new list value);
* groupby(...).agg(...) becomes a map over the sorted distinct keys (pandas
  groupby sorts group keys ascending by default), computing each aggregate
  from the filtered group;
* DataFrame.to_csv(index=False) becomes a header line plus one comma-joined
  line per row, with minimal CSV quoting, and a trailing newline;
* pd.cut / Series.quantile are translated with their numpy semantics
  (linear-interpolation quantiles, right-closed bins, include_lowest).

Rational arithmetic is implemented through Rat.divInt (qAdd, qSub, qMul,
qDiv below) rather than the Rat.add/Rat.mul instances, because the latter
are irreducible and cannot be evaluated by the kernel; the divInt forms
normalize and denote exactly the same rational operations (division by zero
yields 0, which never arises on the guarded paths of the code).
-/

namespace Dashboard

/-- Rational addition, a/b + c/d = (ad + cb)/(bd), in kernel-computable form. -/
def qAdd (a b : Rat) : Rat :=
  Rat.divInt (a.num * (b.den : Int) + b.num * (a.den : Int)) ((a.den : Int) * (b.den : Int))

/-- Rational subtraction, a/b - c/d = (ad - cb)/(bd). -/
def qSub (a b : Rat) : Rat :=
  Rat.divInt (a.num * (b.den : Int) - b.num * (a.den : Int)) ((a.den : Int) * (b.den : Int))

/-- Rational multiplication, (a/b) * (c/d) = ac/bd. -/
def qMul (a b : Rat) : Rat :=
  Rat.divInt (a.num * b.num) ((a.den : Int) * (b.den : Int))

/-- Rational division, (a/b) / (c/d) = ad/bc; division by zero yields 0. -/
def qDiv (a b : Rat) : Rat :=
  Rat.divInt (a.num * (b.den : Int)) ((a.den : Int) * b.num)

/-- Embeds a natural number as a rational. -/
def natToRat (n : Nat) : Rat := Rat.divInt (Int.ofNat n) 1

/-- Sum of a list of rationals; models Series.sum(). -/
def listSum (l : List Rat) : Rat := l.foldr qAdd 0

/-- Minimum of a list of rationals (0 on an empty list); models Series.min(). -/
def listMin : List Rat → Rat
  | [] => 0
  | a :: t => t.foldl (fun m x => if x ≤ m then x else m) a

/-- Maximum of a list of rationals (0 on an empty list); models Series.max(). -/
def listMax : List Rat → Rat
  | [] => 0
  | a :: t => t.foldl (fun m x => if m ≤ x then x else m) a

/-- Python int() truncation toward zero of a rational. -/
def pyInt (q : Rat) : Int := Int.tdiv q.num (q.den : Int)

/-- Worker for dedupFirst: drops every element already seen. -/
def dedupFirstGo [DecidableEq α] (seen : List α) : List α → List α
  | [] => []
  | a :: l => if a ∈ seen then dedupFirstGo seen l else a :: dedupFirstGo (a :: seen) l

/-- Keeps the first occurrence of each value, dropping later duplicates;
models Series.unique(), set(), and DataFrame.drop_duplicates(). -/
def dedupFirst [DecidableEq α] (l : List α) : List α := dedupFirstGo [] l

/-- Sorted insertion of one element, by a boolean comparator. -/
def insertLe (le : α → α → Bool) (a : α) : List α → List α
  | [] => [a]
  | b :: l => if le a b then a :: b :: l else b :: insertLe le a l

/-- Insertion sort by a boolean comparator; models sorted() and
DataFrame.sort_values (ties in the source are in unspecified order, so any
permutation respecting the comparator is a faithful model). -/
def sortByLe (le : α → α → Bool) : List α → List α
  | [] => []
  | a :: l => insertLe le a (sortByLe le l)

/-- Byte-wise comparison of characters. -/
def charListLe : List Char → List Char → Bool
  | [], _ => true
  | _ :: _, [] => false
  | c :: cs, d :: ds =>
    if c.toNat < d.toNat then true
    else if d.toNat < c.toNat then false
    else charListLe cs ds

/-- Lexicographic string comparison used to sort location names. -/
def strLeB (a b : String) : Bool := charListLe a.data b.data

/-- Comparator for ascending numeric sorts. -/
def ratLeB (a b : Rat) : Bool := decide (a ≤ b)

/-! ### Lemmas about the list utilities -/

theorem mem_dedupFirstGo [DecidableEq α] (seen : List α) (l : List α) (x : α) :
    x ∈ dedupFirstGo seen l ↔ x ∈ l ∧ x ∉ seen := by
  induction l generalizing seen with
  | nil => simp [dedupFirstGo]
  | cons a l ih =>
    by_cases h : a ∈ seen
    · simp only [dedupFirstGo, if_pos h, ih, List.mem_cons]
      constructor
      · rintro ⟨hx, hs⟩; exact ⟨Or.inr hx, hs⟩
      · rintro ⟨hx | hx, hs⟩
        · exact absurd (hx ▸ h) hs
        · exact ⟨hx, hs⟩
    · simp only [dedupFirstGo, if_neg h, List.mem_cons, ih, List.mem_cons]
      constructor
      · rintro (rfl | ⟨hx, hs⟩)
        · exact ⟨Or.inl rfl, h⟩
        · exact ⟨Or.inr hx, fun hx2 => hs (Or.inr hx2)⟩
      · rintro ⟨rfl | hx, hs⟩
        · exact Or.inl rfl
        · by_cases hxa : x = a
          · exact Or.inl hxa
          · exact Or.inr ⟨hx, fun h2 => by
              rcases h2 with h3 | h3
              · exact hxa h3
              · exact hs h3⟩

theorem mem_dedupFirst [DecidableEq α] (l : List α) (x : α) :
    x ∈ dedupFirst l ↔ x ∈ l := by
  simp [dedupFirst, mem_dedupFirstGo]

theorem nodup_dedupFirstGo [DecidableEq α] (seen : List α) (l : List α) :
    (dedupFirstGo seen l).Nodup := by
  induction l generalizing seen with
  | nil => simp [dedupFirstGo]
  | cons a l ih =>
    by_cases h : a ∈ seen
    · simpa [dedupFirstGo, if_pos h] using ih seen
    · simp only [dedupFirstGo, if_neg h, List.nodup_cons]
      refine ⟨fun hmem => ?_, ih (a :: seen)⟩
      exact ((mem_dedupFirstGo _ _ _).1 hmem).2 (List.mem_cons_self a seen)

theorem nodup_dedupFirst [DecidableEq α] (l : List α) : (dedupFirst l).Nodup :=
  nodup_dedupFirstGo [] l

theorem length_dedupFirstGo_le [DecidableEq α] (seen : List α) (l : List α) :
    (dedupFirstGo seen l).length ≤ l.length := by
  induction l generalizing seen with
  | nil => simp [dedupFirstGo]
  | cons a l ih =>
    by_cases h : a ∈ seen
    · simp only [dedupFirstGo, if_pos h, List.length_cons]
      exact Nat.le_succ_of_le (ih seen)
    · simp only [dedupFirstGo, if_neg h, List.length_cons]
      exact Nat.succ_le_succ (ih (a :: seen))

theorem length_dedupFirst_le [DecidableEq α] (l : List α) :
    (dedupFirst l).length ≤ l.length :=
  length_dedupFirstGo_le [] l

theorem insertLe_perm (le : α → α → Bool) (a : α) (l : List α) :
    (insertLe le a l).Perm (a :: l) := by
  induction l with
  | nil => simp [insertLe]
  | cons b l ih =>
    by_cases h : le a b
    · simp [insertLe, h]
    · simp only [insertLe, if_neg h]
      exact ((ih.cons b).trans (List.Perm.swap a b l))

theorem sortByLe_perm (le : α → α → Bool) (l : List α) :
    (sortByLe le l).Perm l := by
  induction l with
  | nil => simp [sortByLe]
  | cons a l ih => exact (insertLe_perm le a (sortByLe le l)).trans (ih.cons a)

theorem mem_sortByLe (le : α → α → Bool) (l : List α) (x : α) :
    x ∈ sortByLe le l ↔ x ∈ l :=
  (sortByLe_perm le l).mem_iff

theorem nodup_sortByLe (le : α → α → Bool) (l : List α) (h : l.Nodup) :
    (sortByLe le l).Nodup :=
  (sortByLe_perm le l).nodup_iff.2 h

/-! ### Tables and CSV serialization -/

/-- A table cell: free text or a numeric value. -/
inductive Cell where
  | str : String → Cell
  | num : Rat → Cell
deriving DecidableEq, Repr

/-- CSV field escaping (QUOTE_MINIMAL): a field containing a comma, a double
quote or a newline is wrapped in double quotes with inner quotes doubled. -/
def csvField (s : String) : String :=
  if s.data.any (fun c => c = ',' || c = '"' || c = '\n') then
    "\"" ++ String.mk (s.data.flatMap fun c => if c = '"' then ['"', '"'] else [c]) ++ "\""
  else s

/-- Renders one cell for CSV output. -/
def Cell.render : Cell → String
  | .str s => csvField s
  | .num q => csvField (toString q)

/-- An in-memory table: named columns plus rows of cells. -/
structure Table where
  cols : List String
  rows : List (List Cell)
deriving DecidableEq, Repr

/-- DataFrame.to_csv(index=False).encode(utf-8): a comma-joined header line,
then one comma-joined line per row, each line terminated by a newline. -/
def toCsv (t : Table) : String :=
  String.intercalate "\n"
    (String.intercalate "," (t.cols.map csvField)
      :: t.rows.map fun r => String.intercalate "," (r.map Cell.render)) ++ "\n"

/-- make_clickable from app.py / app2.py: wraps a URL in an HTML anchor. -/
def make_clickable (url : String) : String :=
  "<a href=\"" ++ url ++ "\" target=\"_blank\">View Listing</a>"

/-! ### The property dataset (Updated_Cleaned_Dataset (1).csv) -/

/-- One row of the property table; one field per required column of the
Property Data Dashboard. -/
structure PropRow where
  url : String
  price : Rat
  beds : Rat
  buildArea : Rat
  plotArea : Rat
  desc : String
  areaCents : Rat
  pricePerSqft : Rat
  pricePerCent : Rat
  totalArea : Rat
  ratioBP : Rat
  location : String
deriving DecidableEq, Repr

/-- The required property columns, in the order used for export. -/
def propCols : List String :=
  ["Plot__url", "Plot__Price", "Plot__Beds", "Build__Area", "Plot__Area",
   "Plot__DESC", "Plot__Area_Cents", "Price_per_sqft", "Price_per_cent",
   "Total_Area", "Build_to_Plot_Ratio", "Standardized_Location_Name"]

/-- Cells of one property row, in propCols order. -/
def PropRow.cells (r : PropRow) : List Cell :=
  [.str r.url, .num r.price, .num r.beds, .num r.buildArea, .num r.plotArea,
   .str r.desc, .num r.areaCents, .num r.pricePerSqft, .num r.pricePerCent,
   .num r.totalArea, .num r.ratioBP, .str r.location]

/-- The property dataset as a table. -/
def propTable (d : List PropRow) : Table := ⟨propCols, d.map PropRow.cells⟩

/-- sorted(property_data[Standardized_Location_Name].unique()): the sorted
distinct location names, used both as the multiselect options and as the
groupby key order. -/
def prop_locations (d : List PropRow) : List String :=
  sortByLe strLeB (dedupFirst (d.map PropRow.location))

/-- sorted(property_data[Plot__Beds].unique()). -/
def prop_beds_options (d : List PropRow) : List Rat :=
  sortByLe ratLeB (dedupFirst (d.map PropRow.beds))

/-! ### The plot dataset (standardized_locations_dataset.csv) -/

/-- One row of the plot table; one field per required column of the Plot
Data Dashboard. -/
structure PlotRow where
  url : String
  price : Rat
  area : Rat
  pricePerCent : Rat
  location : String
  latitude : Rat
  longitude : Rat
  dTechnopark : Rat
  dAgasthyamalai : Rat
  dPonmudi : Rat
  dBeach : Rat
  dLake : Rat
  density : String
  ratioPPC : Rat
  beachProximity : String
  lakeProximity : String
deriving DecidableEq, Repr

/-- The required plot columns, in the order used for export. -/
def plotCols : List String :=
  ["Url", "Price", "Area", "Price per cent", "Location", "Latitude",
   "Longitude", "distance_to_technopark", "distance_to_agasthyamalai_hills",
   "distance_to_ponmudi_hills", "distance_to_nearest_beach",
   "distance_to_nearest_lake", "density", "price_to_price_per_cent_ratio",
   "beach_proximity", "lake_proximity"]

/-- Cells of one plot row, in plotCols order. -/
def PlotRow.cells (r : PlotRow) : List Cell :=
  [.str r.url, .num r.price, .num r.area, .num r.pricePerCent,
   .str r.location, .num r.latitude, .num r.longitude, .num r.dTechnopark,
   .num r.dAgasthyamalai, .num r.dPonmudi, .num r.dBeach, .num r.dLake,
   .str r.density, .num r.ratioPPC, .str r.beachProximity,
   .str r.lakeProximity]

/-- The plot dataset as a table. -/
def plotTable (d : List PlotRow) : Table := ⟨plotCols, d.map PlotRow.cells⟩

/-- sorted(plot_data[Location].unique()). -/
def plot_locations (d : List PlotRow) : List String :=
  sortByLe strLeB (dedupFirst (d.map PlotRow.location))

/-- sorted(plot_data[density].unique()). -/
def plot_density_options (d : List PlotRow) : List String :=
  sortByLe strLeB (dedupFirst (d.map PlotRow.density))

/-! ### Filter Engine -/

/-- One numeric range-slider step: keep the rows whose value lies in the
closed interval [lo, hi].  This models every
df[(df[col] >= lo) & (df[col] <= hi)] mask in both files. -/
def rangeStep (f : α → Rat) (lo hi : Rat) (d : List α) : List α :=
  d.filter fun r => decide (lo ≤ f r ∧ f r ≤ hi)

namespace App

/-- The location multiselect of app.py: an empty selection keeps the whole
table (property_data.copy(); copying is the identity on immutable lists),
otherwise rows whose location is in the selected set are kept. -/
def locStep (sel : List String) (d : List PropRow) : List PropRow :=
  if sel.isEmpty then d
  else d.filter fun r => decide (r.location ∈ sel)

/-- The bedrooms multiselect of app.py: the isin mask is applied only when
the selection is nonempty. -/
def bedsStep (sel : List Rat) (d : List PropRow) : List PropRow :=
  if sel.isEmpty then d
  else d.filter fun r => decide (r.beds ∈ sel)

/-- The widget state feeding the app.py property filter chain. -/
structure PropFilter where
  locations : List String
  beds : List Rat
  priceLo : Rat
  priceHi : Rat
  areaCentsLo : Rat
  areaCentsHi : Rat
  buildAreaLo : Rat
  buildAreaHi : Rat
  ratioLo : Rat
  ratioHi : Rat
deriving Repr

/-- filtered_prop_data of app.py (lines 91-169): the sequential mask chain
location, bedrooms, price range, plot-area-cents range, build-area range,
build-to-plot-ratio range. -/
def filtered_prop_data (f : PropFilter) (property_data : List PropRow) : List PropRow :=
  rangeStep PropRow.ratioBP f.ratioLo f.ratioHi
    (rangeStep PropRow.buildArea f.buildAreaLo f.buildAreaHi
      (rangeStep PropRow.areaCents f.areaCentsLo f.areaCentsHi
        (rangeStep PropRow.price f.priceLo f.priceHi
          (bedsStep f.beds
            (locStep f.locations property_data)))))

/-- The conjunction of all predicates of the app.py property chain, with the
empty-categorical-selection-passes-everything rule. -/
def chainPred (f : PropFilter) (r : PropRow) : Bool :=
  (f.locations.isEmpty || decide (r.location ∈ f.locations))
    && (f.beds.isEmpty || decide (r.beds ∈ f.beds))
    && decide (f.priceLo ≤ r.price ∧ r.price ≤ f.priceHi)
    && decide (f.areaCentsLo ≤ r.areaCents ∧ r.areaCents ≤ f.areaCentsHi)
    && decide (f.buildAreaLo ≤ r.buildArea ∧ r.buildArea ≤ f.buildAreaHi)
    && decide (f.ratioLo ≤ r.ratioBP ∧ r.ratioBP ≤ f.ratioHi)

/-- The widget state feeding the app.py plot filter chain. -/
structure PlotFilter where
  locations : List String
  density : List String
  priceLo : Rat
  priceHi : Rat
  areaLo : Rat
  areaHi : Rat
  ppcLo : Rat
  ppcHi : Rat
  ratioLo : Rat
  ratioHi : Rat
  dTechLo : Rat
  dTechHi : Rat
  dAgaLo : Rat
  dAgaHi : Rat
  dPonLo : Rat
  dPonHi : Rat
  dBeachLo : Rat
  dBeachHi : Rat
  dLakeLo : Rat
  dLakeHi : Rat
deriving Repr

/-- The plot location multiselect of app.py: empty keeps everything. -/
def plotLocStep (sel : List String) (d : List PlotRow) : List PlotRow :=
  if sel.isEmpty then d
  else d.filter fun r => decide (r.location ∈ sel)

/-- The density multiselect of app.py: applied only when nonempty. -/
def densityStep (sel : List String) (d : List PlotRow) : List PlotRow :=
  if sel.isEmpty then d
  else d.filter fun r => decide (r.density ∈ sel)

/-- The five distance sliders of app.py, as (column accessor, lo, hi). -/
def distanceBounds (f : PlotFilter) : List ((PlotRow → Rat) × Rat × Rat) :=
  [(PlotRow.dTechnopark, f.dTechLo, f.dTechHi),
   (PlotRow.dAgasthyamalai, f.dAgaLo, f.dAgaHi),
   (PlotRow.dPonmudi, f.dPonLo, f.dPonHi),
   (PlotRow.dBeach, f.dBeachLo, f.dBeachHi),
   (PlotRow.dLake, f.dLakeLo, f.dLakeHi)]

/-- filtered_plot_data of app.py (lines 405-510): location, density, price,
area, price-per-cent, ratio masks, then the loop over the five distance
sliders. -/
def filtered_plot_data (f : PlotFilter) (plot_data : List PlotRow) : List PlotRow :=
  (distanceBounds f).foldl
    (fun acc b => rangeStep b.1 b.2.1 b.2.2 acc)
    (rangeStep PlotRow.ratioPPC f.ratioLo f.ratioHi
      (rangeStep PlotRow.pricePerCent f.ppcLo f.ppcHi
        (rangeStep PlotRow.area f.areaLo f.areaHi
          (rangeStep PlotRow.price f.priceLo f.priceHi
            (densityStep f.density
              (plotLocStep f.locations plot_data))))))

end App

namespace App2

/-- The widget state feeding the app2.py property mask (note: app2.py ranges
over Plot__Area where app.py ranges over Plot__Area_Cents). -/
structure PropFilter2 where
  locations : List String
  beds : List Rat
  priceLo : Rat
  priceHi : Rat
  plotAreaLo : Rat
  plotAreaHi : Rat
  buildAreaLo : Rat
  buildAreaHi : Rat
  ratioLo : Rat
  ratioHi : Rat
deriving Repr

/-- The single AND-composed boolean mask of app2.py (lines 145-156).  The
isin tests are unconditional: an empty selection lets no row through. -/
def maskPred (g : PropFilter2) (r : PropRow) : Bool :=
  decide (r.location ∈ g.locations)
    && decide (r.beds ∈ g.beds)
    && decide (g.priceLo ≤ r.price ∧ r.price ≤ g.priceHi)
    && decide (g.plotAreaLo ≤ r.plotArea ∧ r.plotArea ≤ g.plotAreaHi)
    && decide (g.buildAreaLo ≤ r.buildArea ∧ r.buildArea ≤ g.buildAreaHi)
    && decide (g.ratioLo ≤ r.ratioBP ∧ r.ratioBP ≤ g.ratioHi)

/-- filtered_prop_data of app2.py: one boolean-indexing pass with the
AND-composed mask. -/
def filtered_prop_data (g : PropFilter2) (property_data : List PropRow) : List PropRow :=
  property_data.filter (maskPred g)

end App2

/-! ### Aggregator -/

/-- Series.quantile with the default linear interpolation (also
Series.median, which is quantile(0.5)): with the values sorted ascending as
x_0 .. x_(n-1) and h = (n-1)q, the result is
x_floor(h) + (h - floor(h)) * (x_(floor(h)+1) - x_floor(h)). -/
def quantileLinear (l : List Rat) (q : Rat) : Rat :=
  let s := sortByLe ratLeB l
  let h := qMul (natToRat (s.length - 1)) q
  let i := (Int.fdiv h.num (h.den : Int)).toNat
  let frac := qSub h (natToRat i)
  let xi := s.getD i 0
  qAdd xi (qMul frac (qSub (s.getD (i + 1) xi) xi))

/-- Per-group mean of a projected column: sum / count. -/
def groupMean (f : α → Rat) (g : List α) : Rat :=
  qDiv (listSum (g.map f)) (natToRat g.length)

namespace App

/-- One row of prop_location_summary in app.py, after the
Average_Price_per_Cent column is assigned. -/
structure PropAggRow where
  key : String
  averagePrice : Rat
  sumPrice : Rat
  sumArea : Rat
  totalListings : Nat
  averageBuildArea : Rat
  averagePlotAreaCents : Rat
  averagePricePerCent : Rat
deriving DecidableEq, Repr

/-- The groupby(Standardized_Location_Name).agg(...) step of app.py
(lines 202-209): one row per distinct location (pandas sorts group keys
ascending), aggregating mean/sum/count columns; the derived ratio column
does not exist yet at this point. -/
def prop_location_summary_base (d : List PropRow) : List PropAggRow :=
  (prop_locations d).map fun k =>
    let g := d.filter fun r => decide (r.location = k)
    { key := k
      averagePrice := groupMean PropRow.price g
      sumPrice := listSum (g.map PropRow.price)
      sumArea := listSum (g.map PropRow.areaCents)
      totalListings := g.length
      averageBuildArea := groupMean PropRow.buildArea g
      averagePlotAreaCents := groupMean PropRow.areaCents g
      averagePricePerCent := 0 }

/-- prop_location_summary of app.py after line 211: the
Average_Price_per_Cent column is Sum_Price / Sum_Area, computed from the
group-level sums. -/
def prop_location_summary (d : List PropRow) : List PropAggRow :=
  (prop_location_summary_base d).map fun row =>
    { row with averagePricePerCent := qDiv row.sumPrice row.sumArea }

/-- selected_regions of app.py line 284: the explicit selection, or every
location of the full dataset when the selection is empty. -/
def selected_regions (sel : List String) (allLocs : List String) : List String :=
  if sel.isEmpty then allLocs else sel

/-- comparison_data of app.py (lines 280-291): rows of the aggregate whose
key is selected, the top five by Average_Price (sorted descending), the
bottom five (sorted ascending), concatenated and de-duplicated keeping the
first occurrence (pandas drop_duplicates on identical aggregate rows). -/
def comparison_data (summary : List PropAggRow) (regions : List String) : List PropAggRow :=
  let selected_data := summary.filter fun row => decide (row.key ∈ regions)
  let top_regions :=
    (sortByLe (fun a b => decide (b.averagePrice ≤ a.averagePrice)) summary).take 5
  let bottom_regions :=
    (sortByLe (fun a b => decide (a.averagePrice ≤ b.averagePrice)) summary).take 5
  dedupFirst (selected_data ++ top_regions ++ bottom_regions)

/-- One row of plot_location_summary in app.py, after the
Average_Price_per_Cent column is assigned. -/
structure PlotAggRow where
  key : String
  averagePrice : Rat
  sumPrice : Rat
  sumArea : Rat
  totalPlots : Nat
  averageArea : Rat
  medianArea : Rat
  averagePricePerCent : Rat
deriving DecidableEq, Repr

/-- The groupby(Location).agg(...) step of app.py (lines 665-672). -/
def plot_location_summary_base (d : List PlotRow) : List PlotAggRow :=
  (plot_locations d).map fun k =>
    let g := d.filter fun r => decide (r.location = k)
    { key := k
      averagePrice := groupMean PlotRow.price g
      sumPrice := listSum (g.map PlotRow.price)
      sumArea := listSum (g.map PlotRow.area)
      totalPlots := g.length
      averageArea := groupMean PlotRow.area g
      medianArea := quantileLinear (g.map PlotRow.area) (Rat.divInt 1 2)
      averagePricePerCent := 0 }

/-- plot_location_summary of app.py after line 675: Average_Price_per_Cent
is Sum_Price / Sum_Area. -/
def plot_location_summary (d : List PlotRow) : List PlotAggRow :=
  (plot_location_summary_base d).map fun row =>
    { row with averagePricePerCent := qDiv row.sumPrice row.sumArea }

/-- comparison_plot_data of app.py (lines 677-688), same construction as
comparison_data. -/
def comparison_plot_data (summary : List PlotAggRow) (regions : List String) : List PlotAggRow :=
  let selected_data := summary.filter fun row => decide (row.key ∈ regions)
  let top_regions :=
    (sortByLe (fun a b => decide (b.averagePrice ≤ a.averagePrice)) summary).take 5
  let bottom_regions :=
    (sortByLe (fun a b => decide (a.averagePrice ≤ b.averagePrice)) summary).take 5
  dedupFirst (selected_data ++ top_regions ++ bottom_regions)

end App

namespace App2

/-- One row of prop_location_summary in app2.py (lines 179-185): here the
Average_Price_per_Cent column is the MEAN of the per-row Price_per_cent
column, not a ratio of group sums. -/
structure PropAggRow2 where
  key : String
  averagePrice : Rat
  averagePricePerCent : Rat
  totalListings : Nat
  averageBuildArea : Rat
  averagePlotArea : Rat
deriving DecidableEq, Repr

/-- prop_location_summary of app2.py: groupby(Standardized_Location_Name)
with Average_Price_per_Cent = (Price_per_cent, mean). -/
def prop_location_summary (d : List PropRow) : List PropAggRow2 :=
  (prop_locations d).map fun k =>
    let g := d.filter fun r => decide (r.location = k)
    { key := k
      averagePrice := groupMean PropRow.price g
      averagePricePerCent := groupMean PropRow.pricePerCent g
      totalListings := g.length
      averageBuildArea := groupMean PropRow.buildArea g
      averagePlotArea := groupMean PropRow.plotArea g }

end App2

/-! ### The Price_Category column and the plot CSV export of app.py -/

namespace App

/-- The bin labels of app.py lines 559-561: for consecutive bin edges,
the string built from the int()-truncated edges. -/
def binLabels (bins : List Rat) : List String :=
  (List.range (bins.length - 1)).map fun i =>
    "₹" ++ toString (pyInt (bins.getD i 0)) ++ " - ₹"
      ++ toString (pyInt (bins.getD (i + 1) 0))

/-- pd.cut bin assignment (right-closed bins, include_lowest=True): the
value v falls in bin i when bins[i] < v <= bins[i+1], except that the first
bin also contains its left edge. -/
def cutIndex (bins : List Rat) (v : Rat) : Option Nat :=
  (List.range (bins.length - 1)).find? fun i =>
    decide ((if i = 0 then bins.getD 0 0 ≤ v else bins.getD i 0 < v)
      ∧ v ≤ bins.getD (i + 1) 0)

/-- The label pd.cut assigns to one value; a value outside every bin is NaN,
which to_csv writes as an empty field. -/
def cutLabel (bins : List Rat) (labels : List String) (v : Rat) : String :=
  match cutIndex bins v with
  | some i => labels.getD i ""
  | none => ""

/-- The map section of app.py (lines 543-570): when the filtered plot table
is nonempty, the Price per cent quantile bin edges are computed
(min, quantile 0.25, median, quantile 0.75, max), duplicate edges dropped,
and a Price_Category column is assigned IN PLACE on filtered_plot_data with
pd.cut.  pd.cut raises ValueError when fewer than two distinct edges remain
(all values equal); the exception is caught and no column is added.  The
result is the per-row category labels, or none when no column was added. -/
def priceCategories (filtered : List PlotRow) : Option (List String) :=
  if filtered.isEmpty then none
  else
    let vals := filtered.map PlotRow.pricePerCent
    let price_bins :=
      [listMin vals, quantileLinear vals (Rat.divInt 1 4),
       quantileLinear vals (Rat.divInt 1 2), quantileLinear vals (Rat.divInt 3 4),
       listMax vals]
    let unique_bins := sortByLe ratLeB (dedupFirst price_bins)
    let bins := if unique_bins.length < price_bins.length then unique_bins else price_bins
    if bins.length < 2 then none
    else some (filtered.map fun r => cutLabel bins (binLabels bins) r.pricePerCent)

/-- The table that app.py actually serializes at line 750: the filtered plot
rows, extended by the Price_Category column whenever the map section added
one. -/
def plotExportTable (filtered : List PlotRow) : Table :=
  match priceCategories filtered with
  | some labels =>
      { cols := plotCols ++ ["Price_Category"]
        rows := (filtered.zip labels).map fun p => p.1.cells ++ [Cell.str p.2] }
  | none => plotTable filtered

/-- convert_prop_df of app.py (lines 351-352): CSV-serialize the filtered
property table. -/
def convert_prop_df (d : List PropRow) : String := toCsv (propTable d)

/-- convert_plot_df of app.py (lines 747-748): CSV-serialize the given
table (the mutated filtered_plot_data). -/
def convert_plot_df (t : Table) : String := toCsv t

/-- Columns of the property listings display table (app.py lines 331-335). -/
def prop_display_columns : List String :=
  ["Standardized_Location_Name", "Plot__Price", "Plot__Beds", "Build__Area",
   "Plot__Area_Cents", "Price_per_sqft", "Price_per_cent",
   "Build_to_Plot_Ratio", "Total_Area", "Plot__DESC", "Plot__url"]

/-- prop_filtered_data_display of app.py (lines 327-339): a copy of the
filtered rows with the URL column replaced by a clickable anchor, projected
to the display columns.  The copy means the write to the Plot__url column
touches only this value. -/
def prop_filtered_data_display (filtered : List PropRow) : Table :=
  { cols := prop_display_columns
    rows := filtered.map fun r =>
      [.str r.location, .num r.price, .num r.beds, .num r.buildArea,
       .num r.areaCents, .num r.pricePerSqft, .num r.pricePerCent,
       .num r.ratioBP, .num r.totalArea, .str r.desc,
       .str (make_clickable r.url)] }

/-- Columns of the plot listings display table (app.py lines 728-731). -/
def plot_display_columns : List String :=
  ["Location", "Price", "Area", "Price per cent", "density",
   "price_to_price_per_cent_ratio", "beach_proximity", "lake_proximity",
   "Url"]

/-- plot_filtered_data_display of app.py (lines 724-735): a copy of the
filtered rows with the Url column made clickable, projected to the display
columns. -/
def plot_filtered_data_display (filtered : List PlotRow) : Table :=
  { cols := plot_display_columns
    rows := filtered.map fun r =>
      [.str r.location, .num r.price, .num r.area, .num r.pricePerCent,
       .str r.density, .num r.ratioPPC, .str r.beachProximity,
       .str r.lakeProximity, .str (make_clickable r.url)] }

/-- Everything one full recomputation pass of the app.py Property Data
Dashboard produces, together with the loaded dataset as it stands after the
pass.  Pandas boolean indexing and .copy() return fresh frames, so each
in-place write in the source (the Plot__url display column) lands on a
value derived from the filtered slice, never on property_data; the
embedding mirrors that ownership. -/
structure PropRun where
  property_data : List PropRow
  filtered : List PropRow
  summary : List PropAggRow
  comparison : List PropAggRow
  display : Table
  exportCsv : String
deriving Repr

/-- One full recomputation pass of the app.py Property Data Dashboard:
filtering, aggregation, comparative selection, display formatting, export. -/
def runPropDashboard (property_data : List PropRow) (f : PropFilter) : PropRun :=
  let filtered := filtered_prop_data f property_data
  let summary := prop_location_summary filtered
  let regions := selected_regions f.locations (prop_locations property_data)
  { property_data := property_data
    filtered := filtered
    summary := summary
    comparison := comparison_data summary regions
    display := prop_filtered_data_display filtered
    exportCsv := convert_prop_df filtered }

/-- Everything one full recomputation pass of the app.py Plot Data Dashboard
produces, with the loaded dataset as it stands after the pass.  The
Price_Category assignment (line 564) writes in place into
filtered_plot_data, which pandas boolean indexing materialized as a fresh
frame, so plot_data itself is untouched; the categories are carried next to
the filtered rows. -/
structure PlotRun where
  plot_data : List PlotRow
  filtered : List PlotRow
  categories : Option (List String)
  summary : List PlotAggRow
  comparison : List PlotAggRow
  display : Table
  exportCsv : String
deriving Repr

/-- One full recomputation pass of the app.py Plot Data Dashboard:
filtering, the map section with its in-place Price_Category assignment,
aggregation, comparative selection, display formatting, export of the
mutated filtered table. -/
def runPlotDashboard (plot_data : List PlotRow) (f : PlotFilter) : PlotRun :=
  let filtered := filtered_plot_data f plot_data
  let summary := plot_location_summary filtered
  let regions := selected_regions f.locations (plot_locations plot_data)
  { plot_data := plot_data
    filtered := filtered
    categories := priceCategories filtered
    summary := summary
    comparison := comparison_plot_data summary regions
    display := plot_filtered_data_display filtered
    exportCsv := convert_plot_df (plotExportTable filtered) }

end App

/-! ### Filter-engine lemmas -/

theorem locStep_eq_filter (sel : List String) (d : List PropRow) :
    App.locStep sel d
      = d.filter fun r => sel.isEmpty || decide (r.location ∈ sel) := by
  by_cases h : sel.isEmpty <;> simp [App.locStep, h]

theorem bedsStep_eq_filter (sel : List Rat) (d : List PropRow) :
    App.bedsStep sel d
      = d.filter fun r => sel.isEmpty || decide (r.beds ∈ sel) := by
  by_cases h : sel.isEmpty <;> simp [App.bedsStep, h]

/-- The sequential mask chain of app.py computes a single filter over the
conjunction of its per-column predicates. -/
theorem filtered_prop_data_eq_filter (f : App.PropFilter) (d : List PropRow) :
    App.filtered_prop_data f d = d.filter (App.chainPred f) := by
  unfold App.filtered_prop_data rangeStep
  rw [locStep_eq_filter, bedsStep_eq_filter]
  simp only [List.filter_filter]
  refine List.filter_congr fun a _ => ?_
  simp only [App.chainPred]
  cases f.locations.isEmpty || decide (a.location ∈ f.locations) <;>
    cases f.beds.isEmpty || decide (a.beds ∈ f.beds) <;>
    cases decide (f.priceLo ≤ a.price ∧ a.price ≤ f.priceHi) <;>
    cases decide (f.areaCentsLo ≤ a.areaCents ∧ a.areaCents ≤ f.areaCentsHi) <;>
    cases decide (f.buildAreaLo ≤ a.buildArea ∧ a.buildArea ≤ f.buildAreaHi) <;>
    cases decide (f.ratioLo ≤ a.ratioBP ∧ a.ratioBP ≤ f.ratioHi) <;>
    rfl

theorem rangeStep_sublist (f : α → Rat) (lo hi : Rat) (d : List α) :
    (rangeStep f lo hi d).Sublist d :=
  List.filter_sublist d

theorem locStep_sublist (sel : List String) (d : List PropRow) :
    (App.locStep sel d).Sublist d := by
  unfold App.locStep
  split
  · exact List.Sublist.refl d
  · exact List.filter_sublist d

theorem bedsStep_sublist (sel : List Rat) (d : List PropRow) :
    (App.bedsStep sel d).Sublist d := by
  unfold App.bedsStep
  split
  · exact List.Sublist.refl d
  · exact List.filter_sublist d

theorem plotLocStep_sublist (sel : List String) (d : List PlotRow) :
    (App.plotLocStep sel d).Sublist d := by
  unfold App.plotLocStep
  split
  · exact List.Sublist.refl d
  · exact List.filter_sublist d

theorem densityStep_sublist (sel : List String) (d : List PlotRow) :
    (App.densityStep sel d).Sublist d := by
  unfold App.densityStep
  split
  · exact List.Sublist.refl d
  · exact List.filter_sublist d

theorem foldl_rangeStep_sublist (bs : List ((PlotRow → Rat) × Rat × Rat))
    (s : List PlotRow) :
    (bs.foldl (fun acc b => rangeStep b.1 b.2.1 b.2.2 acc) s).Sublist s := by
  induction bs generalizing s with
  | nil => exact List.Sublist.refl s
  | cons b bs ih => exact (ih _).trans (List.filter_sublist s)

theorem filtered_prop_data_sublist (f : App.PropFilter) (d : List PropRow) :
    (App.filtered_prop_data f d).Sublist d := by
  unfold App.filtered_prop_data
  exact (List.filter_sublist _).trans ((List.filter_sublist _).trans
    ((List.filter_sublist _).trans ((List.filter_sublist _).trans
      ((bedsStep_sublist _ _).trans (locStep_sublist _ _)))))

theorem filtered_plot_data_sublist (f : App.PlotFilter) (d : List PlotRow) :
    (App.filtered_plot_data f d).Sublist d := by
  unfold App.filtered_plot_data
  exact (foldl_rangeStep_sublist _ _).trans ((List.filter_sublist _).trans
    ((List.filter_sublist _).trans ((List.filter_sublist _).trans
      ((List.filter_sublist _).trans ((densityStep_sublist _ _).trans
        (plotLocStep_sublist _ _))))))

/-! ### Claim C5 -/

/-- C5 (amended): sequentially applying two filter states equals one filter
pass over the AND of their predicates; for each variant taken on its own,
the sequential chain and the single AND-composed mask agree.  (The
cross-variant identity of the original claim fails, see the
counterexample.) -/
theorem c5_sequential_equals_and_composed :
    (∀ (f1 f2 : App.PropFilter) (d : List PropRow),
      App.filtered_prop_data f2 (App.filtered_prop_data f1 d)
        = d.filter fun r => App.chainPred f1 r && App.chainPred f2 r)
    ∧ (∀ (f : App.PropFilter) (d : List PropRow),
      App.filtered_prop_data f d = d.filter (App.chainPred f))
    ∧ (∀ (g1 g2 : App2.PropFilter2) (d : List PropRow),
      App2.filtered_prop_data g2 (App2.filtered_prop_data g1 d)
        = d.filter fun r => App2.maskPred g1 r && App2.maskPred g2 r) := by
  refine ⟨?_, filtered_prop_data_eq_filter, ?_⟩
  · intro f1 f2 d
    rw [filtered_prop_data_eq_filter, filtered_prop_data_eq_filter,
      List.filter_filter]
    refine List.filter_congr fun a _ => ?_
    cases App.chainPred f1 a <;> cases App.chainPred f2 a <;> rfl
  · intro g1 g2 d
    unfold App2.filtered_prop_data
    rw [List.filter_filter]
    refine List.filter_congr fun a _ => ?_
    cases App2.maskPred g1 a <;> cases App2.maskPred g2 a <;> rfl

/-- The one-row dataset for the C5 counterexample. -/
def c5Row : PropRow :=
  { url := "u", price := 100, beds := 2, buildArea := 30, plotArea := 50,
    desc := "d", areaCents := 10, pricePerSqft := 0, pricePerCent := 10,
    totalArea := 80, ratioBP := 1, location := "X" }

/-- The app.py widget state of the C5 counterexample: empty location
selection, bedrooms selected, every range at full width. -/
def c5AppFilter : App.PropFilter :=
  { locations := [], beds := [2], priceLo := 0, priceHi := 1000,
    areaCentsLo := 0, areaCentsHi := 100, buildAreaLo := 0,
    buildAreaHi := 100, ratioLo := 0, ratioHi := 10 }

/-- The same widget state handed to the app2.py mask. -/
def c5App2Filter : App2.PropFilter2 :=
  { locations := [], beds := [2], priceLo := 0, priceHi := 1000,
    plotAreaLo := 0, plotAreaHi := 100, buildAreaLo := 0,
    buildAreaHi := 100, ratioLo := 0, ratioHi := 10 }

/-- C5 counterexample: on the same widget state (empty location selection,
all ranges at full width) the sequential chain of app.py keeps the row
while the single AND-composed mask of app2.py rejects every row, so the
two variants do not compute the same filtered set. -/
theorem c5_counterexample :
    App.filtered_prop_data c5AppFilter [c5Row] = [c5Row]
    ∧ App2.filtered_prop_data c5App2Filter [c5Row] = []
    ∧ ([c5Row] : List PropRow) ≠ [] := by
  decide

/-! ### Claim C6 -/

/-- C6: applying the same filter state twice returns the same rows as
applying it once, in both variants. -/
theorem c6_filter_idempotent :
    (∀ (f : App.PropFilter) (d : List PropRow),
      App.filtered_prop_data f (App.filtered_prop_data f d)
        = App.filtered_prop_data f d)
    ∧ (∀ (g : App2.PropFilter2) (d : List PropRow),
      App2.filtered_prop_data g (App2.filtered_prop_data g d)
        = App2.filtered_prop_data g d) := by
  constructor
  · intro f d
    rw [filtered_prop_data_eq_filter, filtered_prop_data_eq_filter,
      List.filter_filter]
    refine List.filter_congr fun a _ => ?_
    cases App.chainPred f a <;> rfl
  · intro g d
    unfold App2.filtered_prop_data
    rw [List.filter_filter]
    refine List.filter_congr fun a _ => ?_
    cases App2.maskPred g a <;> rfl

/-! ### Claim C7 -/

/-- Row 1 of the specification scenario: location A, price 100, area 10. -/
def c7Row1 : PropRow :=
  { url := "u1", price := 100, beds := 0, buildArea := 0, plotArea := 0,
    desc := "", areaCents := 10, pricePerSqft := 0, pricePerCent := 10,
    totalArea := 0, ratioBP := 0, location := "A" }

/-- Row 2 of the specification scenario: location A, price 300, area 30. -/
def c7Row2 : PropRow :=
  { url := "u2", price := 300, beds := 0, buildArea := 0, plotArea := 0,
    desc := "", areaCents := 30, pricePerSqft := 0, pricePerCent := 10,
    totalArea := 0, ratioBP := 0, location := "A" }

/-- Row 3 of the specification scenario: location B, price 1000, area 10. -/
def c7Row3 : PropRow :=
  { url := "u3", price := 1000, beds := 0, buildArea := 0, plotArea := 0,
    desc := "", areaCents := 10, pricePerSqft := 0, pricePerCent := 100,
    totalArea := 0, ratioBP := 0, location := "B" }

/-- The three-row scenario dataset of the specification. -/
def c7Data : List PropRow := [c7Row1, c7Row2, c7Row3]

/-- The widget state selecting the price interval [150, 1000] and leaving
every other control unconstrained. -/
def c7Filter : App.PropFilter :=
  { locations := [], beds := [], priceLo := 150, priceHi := 1000,
    areaCentsLo := 0, areaCentsHi := 1000, buildAreaLo := 0,
    buildAreaHi := 1000, ratioLo := 0, ratioHi := 1000 }

/-- C7: a numeric interval filter keeps exactly the rows whose value lies in
the closed interval [lo, hi], inclusive at both ends; on the three-row
scenario dataset with prices 100, 300, 1000 the price interval [150, 1000]
retains exactly the rows priced 300 and 1000. -/
theorem c7_interval_inclusive :
    (∀ (α : Type) (f : α → Rat) (lo hi : Rat) (d : List α) (r : α),
      r ∈ rangeStep f lo hi d ↔ r ∈ d ∧ lo ≤ f r ∧ f r ≤ hi)
    ∧ App.filtered_prop_data c7Filter c7Data = [c7Row2, c7Row3] := by
  constructor
  · intro α f lo hi d r
    simp [rangeStep, List.mem_filter]
  · decide

/-! ### Claim C2 -/

/-- C2 (amended): in the app.py variant, where every categorical step skips
its mask when the selection is empty, an empty selection filters exactly
like selecting every distinct value present in the dataset; this holds for
both categorical filter columns of the property dashboard. -/
theorem c2_empty_selection_is_select_all (d : List PropRow) :
    App.locStep [] d = App.locStep (prop_locations d) d
    ∧ App.bedsStep [] d = App.bedsStep (prop_beds_options d) d := by
  have hL : ∀ r ∈ d, r.location ∈ prop_locations d := fun r hr => by
    rw [prop_locations, mem_sortByLe, mem_dedupFirst]
    exact List.mem_map_of_mem _ hr
  have hB : ∀ r ∈ d, r.beds ∈ prop_beds_options d := fun r hr => by
    rw [prop_beds_options, mem_sortByLe, mem_dedupFirst]
    exact List.mem_map_of_mem _ hr
  constructor
  · rw [locStep_eq_filter, locStep_eq_filter]
    refine List.filter_congr fun a ha => ?_
    simp [hL a ha]
  · rw [bedsStep_eq_filter, bedsStep_eq_filter]
    refine List.filter_congr fun a ha => ?_
    simp [hB a ha]

/-- The one-row dataset for the C2 counterexample. -/
def c2Row : PropRow :=
  { url := "u", price := 100, beds := 2, buildArea := 30, plotArea := 50,
    desc := "d", areaCents := 10, pricePerSqft := 0, pricePerCent := 10,
    totalArea := 80, ratioBP := 1, location := "X" }

/-- app2.py widget state with an empty location selection. -/
def c2EmptyFilter : App2.PropFilter2 :=
  { locations := [], beds := [2], priceLo := 0, priceHi := 1000,
    plotAreaLo := 0, plotAreaHi := 100, buildAreaLo := 0,
    buildAreaHi := 100, ratioLo := 0, ratioHi := 10 }

/-- The same app2.py widget state with every distinct location selected. -/
def c2AllFilter : App2.PropFilter2 :=
  { locations := ["X"], beds := [2], priceLo := 0, priceHi := 1000,
    plotAreaLo := 0, plotAreaHi := 100, buildAreaLo := 0,
    buildAreaHi := 100, ratioLo := 0, ratioHi := 10 }

/-- C2 counterexample: in app2.py the isin mask is unconditional, so an
empty location selection rejects every row while selecting all distinct
values keeps them: the two results differ on a one-row dataset. -/
theorem c2_counterexample :
    App2.filtered_prop_data c2EmptyFilter [c2Row] = []
    ∧ App2.filtered_prop_data c2AllFilter [c2Row] = [c2Row]
    ∧ prop_locations [c2Row] = ["X"]
    ∧ ([] : List PropRow) ≠ [c2Row] := by
  decide

/-! ### Claim C1 -/

/-- C1 (amended): in app.py, every row of prop_location_summary carries
Average_Price_per_Cent equal to the sum of the prices of its group divided
by the sum of the areas of its group (the group being the rows of the input
whose location is the row key) - a ratio of group-level sums. -/
theorem c1_ratio_from_group_sums (d : List PropRow) (row : App.PropAggRow)
    (hrow : row ∈ App.prop_location_summary d) :
    row.averagePricePerCent
      = qDiv (listSum ((d.filter fun r => decide (r.location = row.key)).map PropRow.price))
          (listSum ((d.filter fun r => decide (r.location = row.key)).map PropRow.areaCents)) := by
  rw [App.prop_location_summary] at hrow
  obtain ⟨b, hb, rfl⟩ := List.mem_map.1 hrow
  rw [App.prop_location_summary_base] at hb
  obtain ⟨k, hk, rfl⟩ := List.mem_map.1 hb
  rfl

/-- Scenario row: location A, price 100, area 10 cents. -/
def c1Row1 : PropRow :=
  { url := "a1", price := 100, beds := 0, buildArea := 0, plotArea := 0,
    desc := "", areaCents := 10, pricePerSqft := 0, pricePerCent := 10,
    totalArea := 0, ratioBP := 0, location := "A" }

/-- Scenario row: location A, price 300, area 30 cents. -/
def c1Row2 : PropRow :=
  { url := "a2", price := 300, beds := 0, buildArea := 0, plotArea := 0,
    desc := "", areaCents := 30, pricePerSqft := 0, pricePerCent := 10,
    totalArea := 0, ratioBP := 0, location := "A" }

/-- Scenario row: location B, price 1000, area 10 cents. -/
def c1Row3 : PropRow :=
  { url := "a3", price := 1000, beds := 0, buildArea := 0, plotArea := 0,
    desc := "", areaCents := 10, pricePerSqft := 0, pricePerCent := 100,
    totalArea := 0, ratioBP := 0, location := "B" }

/-- The three-row scenario dataset used to witness C1. -/
def c1Data : List PropRow := [c1Row1, c1Row2, c1Row3]

/-- The aggregate row app.py computes for group A of the scenario dataset:
mean 200, sums 400 and 40, ratio 400/40 = 10. -/
def c1RowA : App.PropAggRow :=
  { key := "A", averagePrice := 200, sumPrice := 400, sumArea := 40,
    totalListings := 2, averageBuildArea := 0, averagePlotAreaCents := 20,
    averagePricePerCent := 10 }

/-- Witness for C1 on the scenario dataset of the specification. -/
theorem c1_witness :
    c1RowA ∈ App.prop_location_summary c1Data
    ∧ c1RowA.averagePricePerCent
      = qDiv (listSum ((c1Data.filter fun r => decide (r.location = c1RowA.key)).map PropRow.price))
          (listSum ((c1Data.filter fun r => decide (r.location = c1RowA.key)).map PropRow.areaCents)) :=
  ⟨by decide, c1_ratio_from_group_sums c1Data c1RowA (by decide)⟩

/-- Group A rows for the C1 counterexample: per-row ratios 10 and 30,
areas 10 and 30. -/
def c1xRow1 : PropRow :=
  { url := "x1", price := 100, beds := 0, buildArea := 0, plotArea := 0,
    desc := "", areaCents := 10, pricePerSqft := 0, pricePerCent := 10,
    totalArea := 0, ratioBP := 0, location := "A" }

/-- Second group A row: price 900 on 30 cents, per-row ratio 30. -/
def c1xRow2 : PropRow :=
  { url := "x2", price := 900, beds := 0, buildArea := 0, plotArea := 0,
    desc := "", areaCents := 30, pricePerSqft := 0, pricePerCent := 30,
    totalArea := 0, ratioBP := 0, location := "A" }

/-- Two-row group with unequal areas where mean-of-ratios and ratio-of-sums
differ. -/
def c1xData : List PropRow := [c1xRow1, c1xRow2]

/-- Proportional two-row group, areas 1 and 2, both per-row ratios 10. -/
def c1yRow1 : PropRow :=
  { url := "y1", price := 10, beds := 0, buildArea := 0, plotArea := 0,
    desc := "", areaCents := 1, pricePerSqft := 0, pricePerCent := 10,
    totalArea := 0, ratioBP := 0, location := "B" }

/-- Second proportional row: price 20 on 2 cents. -/
def c1yRow2 : PropRow :=
  { url := "y2", price := 20, beds := 0, buildArea := 0, plotArea := 0,
    desc := "", areaCents := 2, pricePerSqft := 0, pricePerCent := 10,
    totalArea := 0, ratioBP := 0, location := "B" }

/-- Two-row group with unequal areas where the two computations coincide. -/
def c1yData : List PropRow := [c1yRow1, c1yRow2]

/-- C1 counterexample.  First flaw: app2.py (also cited by the claim)
computes Average_Price_per_Cent as the mean of the per-row Price_per_cent
ratios, which on a group with prices 100, 900 and areas 10, 30 yields 20
while the ratio of group sums is 1000/40 = 25.  Second flaw: the claimed
parenthetical is wrong - a two-row group with unequal areas (1 and 2) but
proportional prices has mean-of-ratios equal to ratio-of-sums (both 10). -/
theorem c1_counterexample :
    (App2.prop_location_summary c1xData).map App2.PropAggRow2.averagePricePerCent = [20]
    ∧ qDiv (listSum (c1xData.map PropRow.price)) (listSum (c1xData.map PropRow.areaCents)) = 25
    ∧ ((20 : Rat) ≠ 25)
    ∧ c1xRow1.pricePerCent = qDiv c1xRow1.price c1xRow1.areaCents
    ∧ c1xRow2.pricePerCent = qDiv c1xRow2.price c1xRow2.areaCents
    ∧ qDiv (listSum (c1yData.map PropRow.price)) (listSum (c1yData.map PropRow.areaCents))
        = groupMean PropRow.pricePerCent c1yData
    ∧ c1yRow1.areaCents ≠ c1yRow2.areaCents := by
  decide

/-! ### Claim C4 -/

theorem prop_locations_nodup (d : List PropRow) : (prop_locations d).Nodup :=
  nodup_sortByLe _ _ (nodup_dedupFirst _)

theorem prop_location_summary_keys (d : List PropRow) :
    (App.prop_location_summary d).map App.PropAggRow.key = prop_locations d := by
  rw [App.prop_location_summary, App.prop_location_summary_base,
    List.map_map, List.map_map]
  exact List.map_id _

theorem prop_location_summary_keys_nodup (d : List PropRow) :
    ((App.prop_location_summary d).map App.PropAggRow.key).Nodup := by
  rw [prop_location_summary_keys]
  exact prop_locations_nodup d

theorem prop_location_summary_key_inj (d : List PropRow)
    {x y : App.PropAggRow} (hx : x ∈ App.prop_location_summary d)
    (hy : y ∈ App.prop_location_summary d) (hk : x.key = y.key) : x = y := by
  rw [App.prop_location_summary] at hx hy
  obtain ⟨bx, hbx, rfl⟩ := List.mem_map.1 hx
  obtain ⟨b2, hb2, rfl⟩ := List.mem_map.1 hy
  rw [App.prop_location_summary_base] at hbx hb2
  obtain ⟨kx, hkx, rfl⟩ := List.mem_map.1 hbx
  obtain ⟨k2, hk2, rfl⟩ := List.mem_map.1 hb2
  have : kx = k2 := hk
  subst this
  rfl

theorem mem_comparison_data {S : List App.PropAggRow} {R : List String}
    {x : App.PropAggRow} (hx : x ∈ App.comparison_data S R) : x ∈ S := by
  simp only [App.comparison_data] at hx
  rcases List.mem_append.1 ((mem_dedupFirst _ _).1 hx) with h | h
  · rcases List.mem_append.1 h with h2 | h2
    · exact (List.mem_filter.1 h2).1
    · exact (mem_sortByLe _ _ _).1 ((List.take_sublist _ _).subset h2)
  · exact (mem_sortByLe _ _ _).1 ((List.take_sublist _ _).subset h)

/-- The three claimed properties of the comparison union, for any aggregate
input with distinct keys and any de-duplicated selection. -/
theorem comparison_data_spec (S : List App.PropAggRow) (R : List String)
    (hSnd : (S.map App.PropAggRow.key).Nodup)
    (hinj : ∀ x ∈ S, ∀ y ∈ S, x.key = y.key → x = y) :
    ((App.comparison_data S R).map App.PropAggRow.key).Nodup
    ∧ (App.comparison_data S R).length ≤ R.length + 5 + 5
    ∧ ∀ k ∈ R, k ∈ S.map App.PropAggRow.key →
        k ∈ (App.comparison_data S R).map App.PropAggRow.key := by
  refine ⟨?_, ?_, ?_⟩
  · exact List.Nodup.map_on
      (fun x hx y hy h =>
        hinj x (mem_comparison_data hx) y (mem_comparison_data hy) h)
      (nodup_dedupFirst _)
  · have hsel : (S.filter fun row => decide (row.key ∈ R)).length ≤ R.length := by
      have hnd : ((S.filter fun row => decide (row.key ∈ R)).map
          App.PropAggRow.key).Nodup :=
        hSnd.sublist ((List.filter_sublist S).map App.PropAggRow.key)
      have hsub : ((S.filter fun row => decide (row.key ∈ R)).map
          App.PropAggRow.key) ⊆ R := by
        intro k hk
        obtain ⟨row, hrow, rfl⟩ := List.mem_map.1 hk
        exact of_decide_eq_true (List.mem_filter.1 hrow).2
      have := (hnd.subperm hsub).length_le
      rwa [List.length_map] at this
    have h1 := length_dedupFirst_le
      ((S.filter fun row => decide (row.key ∈ R))
        ++ (sortByLe (fun a b => decide (b.averagePrice ≤ a.averagePrice)) S).take 5
        ++ (sortByLe (fun a b => decide (a.averagePrice ≤ b.averagePrice)) S).take 5)
    have h2 : ((sortByLe (fun a b => decide (b.averagePrice ≤ a.averagePrice)) S).take 5).length ≤ 5 :=
      (List.length_take 5 _).le.trans (Nat.min_le_left _ _)
    have h3 : ((sortByLe (fun a b => decide (a.averagePrice ≤ b.averagePrice)) S).take 5).length ≤ 5 :=
      (List.length_take 5 _).le.trans (Nat.min_le_left _ _)
    simp only [App.comparison_data]
    calc (dedupFirst _).length ≤ _ := h1
      _ = (S.filter fun row => decide (row.key ∈ R)).length
            + ((sortByLe (fun a b => decide (b.averagePrice ≤ a.averagePrice)) S).take 5).length
            + ((sortByLe (fun a b => decide (a.averagePrice ≤ b.averagePrice)) S).take 5).length := by
          simp [List.length_append, Nat.add_assoc]
      _ ≤ R.length + 5 + 5 := by omega
  · intro k hkR hkS
    obtain ⟨row, hrowS, rfl⟩ := List.mem_map.1 hkS
    refine List.mem_map.2 ⟨row, ?_, rfl⟩
    simp only [App.comparison_data]
    refine (mem_dedupFirst _ _).2 (List.mem_append.2 (Or.inl
      (List.mem_append.2 (Or.inl (List.mem_filter.2 ⟨hrowS, ?_⟩)))))
    exact decide_eq_true hkR

/-- C4: on the real pipeline (aggregate of the filtered table, selection
defaulting to the full key set when empty, topN = bottomN = 5), the
comparison output has no duplicate group keys, at most
selected + 5 + 5 rows, and contains every selected key present in the
aggregate input. -/
theorem c4_comparison_union_properties
    (property_data : List PropRow) (f : App.PropFilter) :
    ((App.comparison_data
        (App.prop_location_summary (App.filtered_prop_data f property_data))
        (App.selected_regions f.locations (prop_locations property_data))).map
          App.PropAggRow.key).Nodup
    ∧ (App.comparison_data
        (App.prop_location_summary (App.filtered_prop_data f property_data))
        (App.selected_regions f.locations (prop_locations property_data))).length
        ≤ (App.selected_regions f.locations (prop_locations property_data)).length + 5 + 5
    ∧ ∀ k ∈ App.selected_regions f.locations (prop_locations property_data),
        k ∈ (App.prop_location_summary
              (App.filtered_prop_data f property_data)).map App.PropAggRow.key →
        k ∈ (App.comparison_data
              (App.prop_location_summary (App.filtered_prop_data f property_data))
              (App.selected_regions f.locations (prop_locations property_data))).map
              App.PropAggRow.key := by
  exact comparison_data_spec _ _
    (prop_location_summary_keys_nodup _)
    (fun x hx y hy h => prop_location_summary_key_inj _ hx hy h)

/-- Two-row dataset for the C4 witness. -/
def c4Data : List PropRow :=
  [{ url := "w1", price := 100, beds := 2, buildArea := 10, plotArea := 20,
     desc := "", areaCents := 5, pricePerSqft := 1, pricePerCent := 20,
     totalArea := 30, ratioBP := 1, location := "A" },
   { url := "w2", price := 700, beds := 3, buildArea := 12, plotArea := 22,
     desc := "", areaCents := 7, pricePerSqft := 2, pricePerCent := 100,
     totalArea := 34, ratioBP := 1, location := "B" }]

/-- Widget state for the C4 witness: location A selected, full ranges. -/
def c4Filter : App.PropFilter :=
  { locations := ["A"], beds := [], priceLo := 0, priceHi := 10000,
    areaCentsLo := 0, areaCentsHi := 100, buildAreaLo := 0,
    buildAreaHi := 100, ratioLo := 0, ratioHi := 10 }

/-- Witness for C4 at a concrete dataset, filter and selected key. -/
theorem c4_witness :
    ((App.comparison_data
        (App.prop_location_summary (App.filtered_prop_data c4Filter c4Data))
        (App.selected_regions c4Filter.locations (prop_locations c4Data))).map
          App.PropAggRow.key).Nodup
    ∧ (App.comparison_data
        (App.prop_location_summary (App.filtered_prop_data c4Filter c4Data))
        (App.selected_regions c4Filter.locations (prop_locations c4Data))).length
        ≤ (App.selected_regions c4Filter.locations (prop_locations c4Data)).length + 5 + 5
    ∧ "A" ∈ (App.comparison_data
        (App.prop_location_summary (App.filtered_prop_data c4Filter c4Data))
        (App.selected_regions c4Filter.locations (prop_locations c4Data))).map
          App.PropAggRow.key := by
  have h := c4_comparison_union_properties c4Data c4Filter
  exact ⟨h.1, h.2.1, h.2.2 "A" (by decide) (by decide)⟩

/-! ### Claim C10 -/

/-- C10: every filter configuration produces a subsequence of the input
table (rows unmodified, original relative order, no duplication), so the
filtered row count never exceeds the total row count. -/
theorem c10_filtered_is_subsequence :
    (∀ (f : App.PropFilter) (d : List PropRow),
      (App.filtered_prop_data f d).Sublist d
        ∧ (App.filtered_prop_data f d).length ≤ d.length)
    ∧ (∀ (f : App.PlotFilter) (d : List PlotRow),
      (App.filtered_plot_data f d).Sublist d
        ∧ (App.filtered_plot_data f d).length ≤ d.length)
    ∧ (∀ (g : App2.PropFilter2) (d : List PropRow),
      (App2.filtered_prop_data g d).Sublist d
        ∧ (App2.filtered_prop_data g d).length ≤ d.length) := by
  refine ⟨fun f d => ⟨filtered_prop_data_sublist f d,
      (filtered_prop_data_sublist f d).length_le⟩,
    fun f d => ⟨filtered_plot_data_sublist f d,
      (filtered_plot_data_sublist f d).length_le⟩,
    fun g d => ⟨List.filter_sublist d, (List.filter_sublist d).length_le⟩⟩

/-! ### Claim C3 -/

theorem priceCategories_length {filtered : List PlotRow} {ls : List String}
    (h : App.priceCategories filtered = some ls) : ls.length = filtered.length := by
  unfold App.priceCategories at h
  split at h
  · exact absurd h (by simp)
  · dsimp only at h
    split at h <;> split at h <;>
      first
        | (injection h with h2; rw [← h2, List.length_map])
        | exact absurd h (by simp)

/-- C3 (amended): the plot CSV export of app.py serializes one output row
per filtered row, over either exactly the filtered columns or the filtered
columns extended by the in-place-added Price_Category column; when the map
section added no column (empty slice, or all Price per cent values equal)
the exported table is exactly the filtered slice.  Reproducibility of the
export is definitional: the serialization is a pure function of the
filtered rows. -/
theorem c3_export_is_filtered_slice_plus_category (filtered : List PlotRow) :
    (App.plotExportTable filtered).rows.length = filtered.length
    ∧ ((App.plotExportTable filtered).cols = plotCols
        ∨ (App.plotExportTable filtered).cols = plotCols ++ ["Price_Category"])
    ∧ (App.priceCategories filtered = none →
        App.plotExportTable filtered = plotTable filtered) := by
  refine ⟨?_, ?_, ?_⟩
  · cases hc : App.priceCategories filtered with
    | none => simp [App.plotExportTable, hc, plotTable]
    | some ls =>
      simp only [App.plotExportTable, hc]
      rw [List.length_map, List.length_zip, priceCategories_length hc,
        Nat.min_self]
  · cases hc : App.priceCategories filtered with
    | none => exact Or.inl (by simp [App.plotExportTable, hc, plotTable])
    | some ls => exact Or.inr (by simp [App.plotExportTable, hc])
  · intro hc
    simp [App.plotExportTable, hc]

/-- Witness for C3 at the empty filtered slice, where the map section adds
no column and the export is exactly the filtered slice. -/
theorem c3_witness : App.plotExportTable [] = plotTable [] :=
  (c3_export_is_filtered_slice_plus_category []).2.2 rfl

/-- First plot row of the C3 counterexample. -/
def c3Row1 : PlotRow :=
  { url := "u1", price := 100, area := 10, pricePerCent := 100,
    location := "X", latitude := 8, longitude := 76, dTechnopark := 1,
    dAgasthyamalai := 2, dPonmudi := 3, dBeach := 4, dLake := 5,
    density := "low", ratioPPC := 1, beachProximity := "near",
    lakeProximity := "far" }

/-- Second plot row of the C3 counterexample. -/
def c3Row2 : PlotRow :=
  { url := "u2", price := 500, area := 20, pricePerCent := 500,
    location := "Y", latitude := 9, longitude := 77, dTechnopark := 2,
    dAgasthyamalai := 3, dPonmudi := 4, dBeach := 5, dLake := 6,
    density := "high", ratioPPC := 1, beachProximity := "far",
    lakeProximity := "near" }

/-- Two-row plot dataset with distinct Price per cent values. -/
def c3Data : List PlotRow := [c3Row1, c3Row2]

/-- Plot widget state keeping every row: empty selections, full ranges. -/
def c3Filter : App.PlotFilter :=
  { locations := [], density := [], priceLo := 0, priceHi := 100000,
    areaLo := 0, areaHi := 1000, ppcLo := 0, ppcHi := 100000,
    ratioLo := 0, ratioHi := 100, dTechLo := 0, dTechHi := 100,
    dAgaLo := 0, dAgaHi := 100, dPonLo := 0, dPonHi := 100,
    dBeachLo := 0, dBeachHi := 100, dLakeLo := 0, dLakeHi := 100 }

set_option maxRecDepth 10000 in
/-- C3 counterexample: with every widget at full range the filtered slice is
the whole two-row table, the map section has added a Price_Category column
in place to filtered_plot_data, and the bytes app.py exports at line 750
are not the serialization of the filtered slice of the loaded table - they
carry the extra Price_Category column. -/
theorem c3_counterexample :
    App.filtered_plot_data c3Filter c3Data = c3Data
    ∧ App.convert_plot_df (App.plotExportTable (App.filtered_plot_data c3Filter c3Data))
        ≠ toCsv (plotTable (App.filtered_plot_data c3Filter c3Data))
    ∧ (App.plotExportTable c3Data).cols = plotCols ++ ["Price_Category"] := by
  decide

/-! ### Claim C8 -/

/-- C8: one full recomputation pass of either app.py dashboard (filtering,
in-place Price_Category assignment on the filtered frame, aggregation,
comparative selection, display formatting with its in-place URL rewrite on
a copy, CSV export) leaves the loaded dataset exactly as it was: pandas
boolean indexing and .copy() hand each mutating step a fresh value, and no
step writes back into the loaded table. -/
theorem c8_pass_preserves_loaded_dataset :
    (∀ (d : List PropRow) (f : App.PropFilter),
      (App.runPropDashboard d f).property_data = d)
    ∧ (∀ (d : List PlotRow) (f : App.PlotFilter),
      (App.runPlotDashboard d f).plot_data = d) :=
  ⟨fun _ _ => rfl, fun _ _ => rfl⟩

/-! ### Claim C9 -/

set_option maxRecDepth 10000 in
/-- C9: serializing a zero-row table never fails and yields exactly the
header line: the column names comma-joined, with the terminating newline
and no data rows; instantiated on both export paths (the property export
and the plot export including its category logic, which adds nothing on an
empty slice). -/
theorem c9_zero_rows_csv_is_header_only :
    (∀ cols : List String,
      toCsv ⟨cols, []⟩ = String.intercalate "," (cols.map csvField) ++ "\n")
    ∧ App.convert_prop_df []
        = "Plot__url,Plot__Price,Plot__Beds,Build__Area,Plot__Area,Plot__DESC,Plot__Area_Cents,Price_per_sqft,Price_per_cent,Total_Area,Build_to_Plot_Ratio,Standardized_Location_Name\n"
    ∧ App.convert_plot_df (App.plotExportTable [])
        = "Url,Price,Area,Price per cent,Location,Latitude,Longitude,distance_to_technopark,distance_to_agasthyamalai_hills,distance_to_ponmudi_hills,distance_to_nearest_beach,distance_to_nearest_lake,density,price_to_price_per_cent_ratio,beach_proximity,lake_proximity\n" :=
  ⟨fun _ => rfl, by decide, by decide⟩

end Dashboard
